import Mathlib

/-!
A shallow embedding of `src/LLAMA/lit_llama/lora_new.py` (LoRA for LLaMA):
the fused low-rank-adapted linear layer `MergedLinearFull` with its
merge/unmerge transition, the parameter-freezing and checkpoint-filtering
helpers, and the `lora` context manager that swaps the attention class.

Tensors are modelled over `ℚ` so that every equality is exact; a matrix is a
total function `ℕ → ℕ → ℚ` read only inside its nominal dimensions, and a
vector is `ℕ → ℚ`.  Python attribute absence (the `lora_A`/`lora_B`/`scaling`
attributes exist only when `r > 0 and any(enable_lora)`) is modelled by the
`has_lora` flag; `forward` returns `none` exactly where the Python code would
raise `AttributeError`.  Dropout is carried as an opaque function field; with
dropout rate 0 the source installs the identity (`lambda x: x`).
-/

/-! ## String helpers (Python `in` and `str.split` as used by the filters) -/

/-- Python substring test helper: does `s` start with `pat`? -/
def leadsWith : List Char → List Char → Bool
  | [], _ => true
  | _ :: _, [] => false
  | p :: ps, c :: cs => p == c && leadsWith ps cs

/-- Python `pat in s` on character lists. -/
def hasMark (pat : List Char) : List Char → Bool
  | [] => leadsWith pat []
  | c :: cs => leadsWith pat (c :: cs) || hasMark pat cs

/-- Python `pat in s` for strings. -/
def marked (pat s : String) : Bool := hasMark pat.data s.data

/-- The characters of `s` strictly before the first occurrence of `pat`
(`s.split(pat)[0]` in Python, when `pat` occurs in `s`). -/
def headBefore (pat : List Char) : List Char → List Char
  | [] => []
  | c :: cs => if leadsWith pat (c :: cs) then [] else c :: headBefore pat cs

/-- String literals used by the source (`lora_`, `bias`, the three
bias-policy values). -/
def loraMarkS : String := "lora_"

def biasMarkS : String := "bias"

def noneS : String := "none"

def allS : String := "all"

def loraOnlyS : String := "lora_only"

/-- Embeds `bias_name = k.split(loraMark)[0] + biasMark` from `lora_state_dict`. -/
def bias_name (k : String) : String :=
  String.mk (headBefore loraMarkS.data k.data) ++ biasMarkS

/-! ## The fused layer `MergedLinearFull` -/

/-- A matrix over `ℚ`, indexed row-then-column; entries outside the nominal
dimensions are never read. -/
abbrev Mat := ℕ → ℕ → ℚ

/-- State of a `MergedLinearFull` object: the fields written by
`nn.Linear.__init__`, `LoRALayerFull.__init__` and `MergedLinearFull.__init__`.
`has_lora` records whether the attributes `lora_A`, `lora_B` and `scaling`
were created (`r > 0 and any(enable_lora)` at construction); when it is
`false` the corresponding fields are junk that the Python object does not
have, and reading them raises. -/
structure MergedLinearFull where
  in_features : ℕ
  out_features : ℕ
  r : ℕ
  lora_alpha : ℚ
  lora_dropout : (ℕ → ℚ) → ℕ → ℚ
  enable_lora : List Bool
  fan_in_fan_out : Bool
  merge_weights : Bool
  weight : Mat
  bias : ℕ → ℚ
  lora_A : Mat
  lora_B : Mat
  scaling : ℚ
  has_lora : Bool
  merged : Bool
  training : Bool

/-- Errors of `MergedLinearFull.__init__`: evaluating
`out_features % len(enable_lora)` raises `ZeroDivisionError` in Python when
`enable_lora` is empty, before the assert can fail; otherwise a nonzero
remainder fails the assert (`AssertionError`). -/
inductive InitError
  | zeroDivisionError
  | assertionError
deriving DecidableEq

/-- Embeds `MergedLinearFull.__init__`.  The random draws of the host initializer are
taken as parameters (`weight0`, `bias0` for `nn.Linear.reset_parameters`,
`A0` for the Kaiming-uniform fill of `lora_A`); `lora_B` is zero-filled, the
`assert out_features % len(enable_lora) == 0` line is modelled with its two
Python failure modes — `ZeroDivisionError` for an empty `enable_lora`
(Python `%` by zero raises, unlike the total Lean `%`), `AssertionError`
for a nonzero remainder — and
`if fan_in_fan_out: self.weight.data = self.weight.data.T` transposes the
stored weight. -/
def MergedLinearFull.init (in_features out_features r : ℕ) (lora_alpha : ℚ)
    (lora_dropout : (ℕ → ℚ) → ℕ → ℚ) (enable_lora : List Bool)
    (fan_in_fan_out merge_weights : Bool) (weight0 : Mat) (bias0 : ℕ → ℚ)
    (A0 : Mat) : Except InitError MergedLinearFull :=
  if enable_lora.length = 0 then Except.error InitError.zeroDivisionError
  else if out_features % enable_lora.length = 0 then
    Except.ok
      { in_features := in_features
        out_features := out_features
        r := r
        lora_alpha := lora_alpha
        lora_dropout := lora_dropout
        enable_lora := enable_lora
        fan_in_fan_out := fan_in_fan_out
        merge_weights := merge_weights
        weight := if fan_in_fan_out then (fun i j => weight0 j i) else weight0
        bias := bias0
        lora_A := A0
        lora_B := fun _ _ => 0
        scaling := lora_alpha / (r : ℚ)
        has_lora := decide (0 < r) && enable_lora.any (fun b => b)
        merged := false
        training := true }
  else Except.error InitError.assertionError

/-- Consistency of the attribute-presence flag with the construction guard
`r > 0 and any(enable_lora)`; every layer produced by `init` satisfies it and
every state reachable from one does (training only mutates `weight`,
`lora_A`, `lora_B`, `merged`, `training`). -/
def MergedLinearFull.WF (l : MergedLinearFull) : Prop :=
  l.has_lora = (decide (0 < l.r) && l.enable_lora.any (fun b => b))

/-- The local helper `T(w)` of `forward`: transpose iff `fan_in_fan_out`. -/
def MergedLinearFull.Tw (l : MergedLinearFull) : Mat :=
  if l.fan_in_fan_out then (fun i j => l.weight j i) else l.weight

/-- Embeds `F.linear(x, T(self.weight), bias=self.bias)`: the frozen base path of
`forward`. -/
def MergedLinearFull.linearBase (l : MergedLinearFull) (x : ℕ → ℚ) : ℕ → ℚ :=
  fun o => (∑ j ∈ Finset.range l.in_features, l.Tw o j * x j) + l.bias o

/-- Embeds `after_A = F.linear(self.lora_dropout(x), self.lora_A)`. -/
def MergedLinearFull.after_A (l : MergedLinearFull) (x : ℕ → ℚ) : ℕ → ℚ :=
  fun k => ∑ j ∈ Finset.range l.in_features, l.lora_A k j * l.lora_dropout x j

/-- Embeds `after_B = F.conv1d(after_A.transpose(-2,-1), self.lora_B.unsqueeze(-1))
.transpose(-2,-1)`: with a kernel of width 1 and default groups this is the
plain product by `lora_B` along the rank axis, over the full output width. -/
def MergedLinearFull.after_B (l : MergedLinearFull) (x : ℕ → ℚ) : ℕ → ℚ :=
  fun o => ∑ k ∈ Finset.range l.r, l.lora_B o k * l.after_A x k

/-- Embeds `MergedLinearFull.forward`.  Returns `none` where the Python code raises
`AttributeError`: the `self.r > 0` branch reads `self.lora_A`, `self.lora_B`
and `self.scaling`, which exist only when `has_lora`. -/
def MergedLinearFull.forward (l : MergedLinearFull) (x : ℕ → ℚ) :
    Option (ℕ → ℚ) :=
  if l.merged then some (l.linearBase x)
  else if 0 < l.r then
    if l.has_lora then
      some (fun o => l.linearBase x o + l.after_B x o * l.scaling)
    else none
  else some (l.linearBase x)

/-- Evaluates `forward` with the error case defaulted to the zero function, for
pointwise evaluation. -/
def MergedLinearFull.fwdD (l : MergedLinearFull) (x : ℕ → ℚ) : ℕ → ℚ :=
  (l.forward x).getD (fun _ => 0)

/-- Embeds `delta_w = F.conv1d(lora_A.unsqueeze(0), lora_B.unsqueeze(-1)).squeeze(0)`
from `train`: the full product `lora_B @ lora_A` of shape
(out_features × in_features). -/
def MergedLinearFull.delta_w (l : MergedLinearFull) : Mat :=
  fun i j => ∑ k ∈ Finset.range l.r, l.lora_B i k * l.lora_A k j

/-- Embeds `MergedLinearFull.train(mode)`.  `nn.Linear.train` sets `training`;
`should = self.merged if mode else not self.merged`; when
`self.merge_weights and should`, the weight is updated (guarded by
`self.r > 0 and any(self.enable_lora)`) with `sign = -1 if mode else 1` as
`weight += sign * delta_w * scaling`, and `merged = not mode` is set outside
that inner guard.  Note the local transpose helper `T` of the source is dead
code: `delta_w` is applied to the stored weight without it. -/
def MergedLinearFull.train (l : MergedLinearFull) (mode : Bool) :
    MergedLinearFull :=
  if l.merge_weights && (if mode then l.merged else !l.merged) then
    if decide (0 < l.r) && l.enable_lora.any (fun b => b) then
      { l with
        training := mode
        weight := fun i j =>
          l.weight i j + (if mode then (-1 : ℚ) else 1) * l.delta_w i j * l.scaling
        merged := !mode }
    else { l with training := mode, merged := !mode }
  else { l with training := mode }

/-! ## `mark_only_lora_as_trainable` and `lora_state_dict` -/

/-- The slice of an `nn.Module` the two filters read: `named_parameters()`
as (dotted name, `requires_grad`) pairs, plus the names of the `bias`
parameters owned by `LoRALayerFull` modules whose `bias` is not `None`
(the objects touched by the `lora_only` branch of the trainability filter). -/
structure PyModel where
  named_parameters : List (String × Bool)
  lora_layer_bias : List String
deriving DecidableEq

/-- The first loop of `mark_only_lora_as_trainable`: every parameter whose
name does not contain `lora_` gets `requires_grad = False`. -/
def freezeNonLora (ps : List (String × Bool)) : List (String × Bool) :=
  ps.map (fun p => if marked loraMarkS p.1 then p else (p.1, false))

/-- Embeds `mark_only_lora_as_trainable(model, bias)`;
`raise NotImplementedError` is `Except.error`. -/
def mark_only_lora_as_trainable (m : PyModel) (bias : String) :
    Except Unit PyModel :=
  let ps := freezeNonLora m.named_parameters
  if bias = noneS then Except.ok { m with named_parameters := ps }
  else if bias = allS then
    Except.ok { m with named_parameters := ps.map (fun p => if marked biasMarkS p.1 then (p.1, true) else p) }
  else if bias = loraOnlyS then
    Except.ok { m with named_parameters := ps.map (fun p => if p.1 ∈ m.lora_layer_bias then (p.1, true) else p) }
  else Except.error ()

/-- The `lora_only` loop of `lora_state_dict`: for every key containing
`lora_` keep it, and also keep `bias_name = k.split(loraMark)[0]+biasMark`
when that key is in the state dict. -/
def collectLoraOnly (d : List String) : List String → List String
  | [] => []
  | k :: ks =>
      (if marked loraMarkS k then
        k :: (if bias_name k ∈ d then [bias_name k] else [])
      else []) ++ collectLoraOnly d ks

/-- Embeds `lora_state_dict(model, bias)` acting on the key set of
`model.state_dict()`; `raise NotImplementedError` is `Except.error`. -/
def lora_state_dict (d : List String) (bias : String) :
    Except Unit (List String) :=
  if bias = noneS then Except.ok (d.filter (fun k => marked loraMarkS k))
  else if bias = allS then
    Except.ok (d.filter (fun k => marked loraMarkS k || marked biasMarkS k))
  else if bias = loraOnlyS then Except.ok (collectLoraOnly d d)
  else Except.error ()

/-- Evaluates `lora_state_dict` with the error case defaulted to the empty selection,
for membership statements about the three accepted policies. -/
def selected (d : List String) (bias : String) : List String :=
  match lora_state_dict d bias with
  | Except.ok l => l
  | Except.error _ => []

/-! ## The `lora` context manager -/

/-- The dataclass `LoRAConfig` (all three fields are floats). -/
structure LoRAConfig where
  r : ℚ
  alpha : ℚ
  dropout : ℚ
deriving DecidableEq

/-- Which class object `llama.CausalSelfAttention` currently names. -/
inductive AttnClassRef
  | baseline
  | loraVariant
deriving DecidableEq

/-- The process-wide state the context manager mutates: the module attribute
`llama.CausalSelfAttention` and the class attribute
`CausalSelfAttention.lora_config`. -/
structure LlamaGlobals where
  causalSelfAttention : AttnClassRef
  lora_config : Option LoRAConfig
deriving DecidableEq

/-- The globals as they stand inside an enabled scope: config recorded,
attention class replaced by the LoRA variant. -/
def substituted (r alpha dropout : ℚ) : LlamaGlobals :=
  { causalSelfAttention := AttnClassRef.loraVariant
    lora_config := some { r := r, alpha := alpha, dropout := dropout } }

/-- The generator body of the `lora` context manager.  `body` is the model
construction code run at the `yield`; it returns the globals it leaves behind
and whether it raised.  A `@contextmanager` generator with a bare `yield`
(no `try/finally`) never resumes past the `yield` when the body raises, so
the two restoration lines run only on normal exit. -/
def lora (r alpha dropout : ℚ) (enabled : Bool)
    (body : LlamaGlobals → LlamaGlobals × Bool) (g : LlamaGlobals) :
    LlamaGlobals × Bool :=
  if !enabled then body g
  else
    let out := body (substituted r alpha dropout)
    if out.2 then out
    else ({ out.1 with causalSelfAttention := g.causalSelfAttention, lora_config := none }, false)

/-! ## Concrete instances used by the closed theorems -/

/-- A rank-1 layer with `fan_in_fan_out = True`, zero frozen weight and bias,
`lora_A = [[1,0]]`, `lora_B = [[0],[1]]`, scaling 1, dropout identity. -/
def exC1 : MergedLinearFull where
  in_features := 2
  out_features := 2
  r := 1
  lora_alpha := 1
  lora_dropout := fun v => v
  enable_lora := [true]
  fan_in_fan_out := true
  merge_weights := true
  weight := fun _ _ => 0
  bias := fun _ => 0
  lora_A := fun k j => if k = 0 ∧ j = 0 then 1 else 0
  lora_B := fun i k => if i = 1 ∧ k = 0 then 1 else 0
  scaling := 1
  has_lora := true
  merged := false
  training := true

/-- The input `x = [1, 0]` for the merge-divergence evaluation. -/
def exX1 : ℕ → ℚ := fun j => if j = 0 then 1 else 0

/-- A layer with `enable_lora = [True, False, True]`, three output partitions
of size 1, whose `lora_B` has a nonzero row only at the middle (disabled)
partition row 1. -/
def exC2 : MergedLinearFull where
  in_features := 1
  out_features := 3
  r := 1
  lora_alpha := 1
  lora_dropout := fun v => v
  enable_lora := [true, false, true]
  fan_in_fan_out := false
  merge_weights := true
  weight := fun _ _ => 0
  bias := fun _ => 0
  lora_A := fun k j => if k = 0 ∧ j = 0 then 1 else 0
  lora_B := fun i k => if i = 1 ∧ k = 0 then 1 else 0
  scaling := 1
  has_lora := true
  merged := false
  training := true

/-- The input `x = [1]` for the partition-masking counterexample. -/
def exX2 : ℕ → ℚ := fun _ => 1

/-- An unmerged rank-1 layer used to witness the merge round-trip. -/
def exC3 : MergedLinearFull where
  in_features := 1
  out_features := 1
  r := 1
  lora_alpha := 2
  lora_dropout := fun v => v
  enable_lora := [true]
  fan_in_fan_out := false
  merge_weights := true
  weight := fun _ _ => 5
  bias := fun _ => 0
  lora_A := fun _ _ => 3
  lora_B := fun _ _ => 7
  scaling := 2
  has_lora := true
  merged := false
  training := true

/-- A rank-0 layer with `merge_weights = True`: the merge transition still
flips the `merged` flag. -/
def exC5 : MergedLinearFull where
  in_features := 1
  out_features := 1
  r := 0
  lora_alpha := 1
  lora_dropout := fun v => v
  enable_lora := [false]
  fan_in_fan_out := false
  merge_weights := true
  weight := fun _ _ => 1
  bias := fun _ => 0
  lora_A := fun _ _ => 0
  lora_B := fun _ _ => 0
  scaling := 1
  has_lora := false
  merged := false
  training := true

/-- A rank-0 layer used to witness the plain-projection behaviour. -/
def exC6w : MergedLinearFull where
  in_features := 2
  out_features := 2
  r := 0
  lora_alpha := 1
  lora_dropout := fun v => v
  enable_lora := [false]
  fan_in_fan_out := false
  merge_weights := true
  weight := fun i j => if i = j then 2 else 0
  bias := fun _ => 1
  lora_A := fun _ _ => 0
  lora_B := fun _ _ => 0
  scaling := 1
  has_lora := false
  merged := false
  training := true

/-- The layer `init 2 2 1 1 id [false, false] false true 0 0 0` produces:
rank 1 but no partition enabled, so no low-rank attributes. -/
def exC6 : MergedLinearFull where
  in_features := 2
  out_features := 2
  r := 1
  lora_alpha := 1
  lora_dropout := fun v => v
  enable_lora := [false, false]
  fan_in_fan_out := false
  merge_weights := true
  weight := fun _ _ => 0
  bias := fun _ => 0
  lora_A := fun _ _ => 0
  lora_B := fun _ _ => 0
  scaling := 1 / (1 : ℚ)
  has_lora := decide (0 < 1) && [false, false].any (fun b => b)
  merged := false
  training := true

/-- The layer `init 1 1 1 1 id [false] false true 0 0 0` produces: accepted
by the constructor, rank 1, single disabled partition. -/
def exC8 : MergedLinearFull where
  in_features := 1
  out_features := 1
  r := 1
  lora_alpha := 1
  lora_dropout := fun v => v
  enable_lora := [false]
  fan_in_fan_out := false
  merge_weights := true
  weight := fun _ _ => 0
  bias := fun _ => 0
  lora_A := fun _ _ => 0
  lora_B := fun _ _ => 0
  scaling := 1 / (1 : ℚ)
  has_lora := decide (0 < 1) && [false].any (fun b => b)
  merged := false
  training := true

/-- A model whose only parameter is a low-rank factor that is already
frozen before the filter runs. -/
def exM9 : PyModel where
  named_parameters := [(String.append (String.append "h" loraMarkS) "A", false)]
  lora_layer_bias := []

/-- The name of the single parameter of `exM9`. -/
def exN9 : String := String.append (String.append "h" loraMarkS) "A"

/-- A model used to witness the amended trainability-filter property. -/
def exM9w : PyModel where
  named_parameters := [(String.append "w" biasMarkS, true), (exN9, true)]
  lora_layer_bias := []

/-- A body that raises inside the scope without touching the globals. -/
def exBody7 : LlamaGlobals → LlamaGlobals × Bool := fun s => (s, true)

/-- A body that returns normally without touching the globals. -/
def exBody7w : LlamaGlobals → LlamaGlobals × Bool := fun s => (s, false)

/-- Globals before the scope: baseline attention class, no config. -/
def exG7 : LlamaGlobals where
  causalSelfAttention := AttnClassRef.baseline
  lora_config := none

/-- A state-dict key set with two factor keys and their sibling bias, plus an
unrelated bias, for witnessing the checkpoint filter. -/
def exD10 : List String :=
  [String.append "c." (String.append loraMarkS "A"),
   String.append "c." biasMarkS,
   String.append "p." biasMarkS]

/-- The model produced by freezing `exM9w` with policy `none`. -/
def exM9r : PyModel where
  named_parameters := [(String.append "w" biasMarkS, false), (exN9, true)]
  lora_layer_bias := []

/-! ## Helper lemmas -/

/-- When the adaptation is vacuous (`r == 0` or no partition enabled) the
weight-mutation guard of `train` is off: one call leaves `weight` (and the
configuration) unchanged, and leaves `merged` unchanged when
`merge_weights` is false. -/
theorem MergedLinearFull.train_vacuous_step (l : MergedLinearFull) (mode : Bool)
    (h : l.r = 0 ∨ l.enable_lora.any (fun b => b) = false) :
    (l.train mode).weight = l.weight ∧ (l.train mode).r = l.r ∧
    (l.train mode).enable_lora = l.enable_lora ∧
    (l.train mode).merge_weights = l.merge_weights ∧
    (l.merge_weights = false → (l.train mode).merged = l.merged) := by
  have hg : (decide (0 < l.r) && l.enable_lora.any (fun b => b)) = false := by
    rcases h with h | h
    · simp [h]
    · simp [h]
  rcases hmw : l.merge_weights with _ | _ <;> rcases hm : l.merged with _ | _ <;>
    rcases mode with _ | _ <;> simp [MergedLinearFull.train, hmw, hm, hg]

/-! ## Claim theorems -/

/-- C1: merging is not a transparent reparameterization for every rank>0
layer.  On the concrete layer `exC1` (rank 1, one enabled partition,
`fan_in_fan_out = True`, dropout 0, zero frozen weight and bias,
`lora_A = [[1,0]]`, `lora_B = [[0],[1]]`, scaling 1) and input `x = [1,0]`,
the unmerged forward yields output index 1 = 1, but after the transition to
Merged via `train(False)` the same forward yields 0: `train` adds
`delta_w = lora_B @ lora_A` to the transposed stored weight without the
`fan_in_fan_out` transpose `T` (which the source defines in `train` but
never applies), so the merged layer applies the update transposed. -/
theorem forward_diverges_across_merge_with_fan_in_fan_out :
    MergedLinearFull.WF exC1 ∧ exC1.merged = false ∧
    (exC1.train false).merged = true ∧
    exC1.fwdD exX1 1 = 1 ∧ (exC1.train false).fwdD exX1 1 = 0 := by
  refine ⟨rfl, rfl, rfl, ?_, ?_⟩
  · norm_num [MergedLinearFull.fwdD, MergedLinearFull.forward,
      MergedLinearFull.linearBase, MergedLinearFull.after_B,
      MergedLinearFull.after_A, MergedLinearFull.Tw, exC1, exX1,
      Finset.sum_range_succ]
  · norm_num [MergedLinearFull.fwdD, MergedLinearFull.forward,
      MergedLinearFull.linearBase, MergedLinearFull.after_B,
      MergedLinearFull.after_A, MergedLinearFull.Tw, MergedLinearFull.train,
      MergedLinearFull.delta_w, exC1, exX1, Finset.sum_range_succ]

/-- C2 counterexample: on the layer `exC2` with
`enable_lora = [true, false, true]`, three equal partitions of size 1 and a
`lora_B` whose only nonzero row is the middle (disabled) partition row, the
low-rank branch contributes 1 (not 0) to output index 1, the sole index of
the middle partition: the source applies the full `lora_B @ lora_A` update
to every output index, with no partition scatter. -/
theorem lora_update_hits_disabled_partition :
    exC2.enable_lora = [true, false, true] ∧ exC2.out_features = 3 ∧
    exC2.merged = false ∧
    exC2.fwdD exX2 1 - exC2.linearBase exX2 1 = 1 := by
  refine ⟨rfl, rfl, rfl, ?_⟩
  norm_num [MergedLinearFull.fwdD, MergedLinearFull.forward,
    MergedLinearFull.linearBase, MergedLinearFull.after_B,
    MergedLinearFull.after_A, MergedLinearFull.Tw, exC2, exX2,
    Finset.sum_range_succ]
  decide

/-- C2 amended: for an unmerged rank>0 layer with
`enable_lora = [true, false, true]`, the low-rank branch contributes
`after_B(x) * scaling` — the full `lora_B` product along the rank axis — at
EVERY output index `o`, including the indices of the middle disabled
partition; disabled blocks receive the same adaptation as enabled ones, and
their contribution is zero only when the corresponding rows of
`lora_B @ lora_A` annihilate the (dropped-out) input. -/
theorem forward_adds_lora_update_at_every_index (l : MergedLinearFull)
    (x : ℕ → ℚ) (hw : l.WF) (hm : l.merged = false) (hr : 0 < l.r)
    (he : l.enable_lora = [true, false, true]) (o : ℕ) :
    l.fwdD x o = l.linearBase x o + l.after_B x o * l.scaling := by
  have hl : l.has_lora = true := by
    rw [MergedLinearFull.WF] at hw
    rw [hw, he]
    simp [hr]
  simp [MergedLinearFull.fwdD, MergedLinearFull.forward, hm, hr, hl]

/-- Witness for the amended C2 theorem at the concrete layer `exC2`. -/
theorem forward_adds_lora_update_at_every_index_witness :
    MergedLinearFull.WF exC2 ∧ exC2.merged = false ∧ 0 < exC2.r ∧
    exC2.enable_lora = [true, false, true] ∧
    exC2.fwdD exX2 1 = exC2.linearBase exX2 1 + exC2.after_B exX2 1 * exC2.scaling :=
  ⟨rfl, rfl, by decide, rfl,
    forward_adds_lora_update_at_every_index exC2 exX2 rfl rfl (by decide) rfl 1⟩

/-- C3: for every unmerged layer, any `lora_A`, `lora_B` and `scaling`, the
round trip `train(False)` (merge) followed by `train(True)` (unmerge)
restores the stored weight matrix exactly: the same
`delta_w * scaling` is added with sign `+1` and then subtracted with sign
`-1`. -/
theorem train_roundtrip_restores_weight (l : MergedLinearFull)
    (h : l.merged = false) :
    ((l.train false).train true).weight = l.weight := by
  rcases hmw : l.merge_weights with _ | _ <;>
    rcases hg : (decide (0 < l.r) && l.enable_lora.any (fun b => b)) with _ | _ <;>
      simp [MergedLinearFull.train, MergedLinearFull.delta_w, h, hmw, hg]

/-- Witness for C3 at the concrete unmerged layer `exC3`. -/
theorem train_roundtrip_restores_weight_witness :
    exC3.merged = false ∧ ((exC3.train false).train true).weight = exC3.weight :=
  ⟨rfl, train_roundtrip_restores_weight exC3 rfl⟩

/-- C4: `train` is idempotent: for every layer state and mode, a second call
with the same mode changes neither the stored weight nor the merged flag —
after the first call the flag already equals `not mode`, so the transition
guard `should` is false on the second call. -/
theorem train_idempotent (l : MergedLinearFull) (mode : Bool) :
    ((l.train mode).train mode).weight = (l.train mode).weight ∧
    ((l.train mode).train mode).merged = (l.train mode).merged := by
  rcases mode with _ | _ <;> rcases hm : l.merged with _ | _ <;>
    rcases hmw : l.merge_weights with _ | _ <;>
      rcases hg : (decide (0 < l.r) && l.enable_lora.any (fun b => b)) with _ | _ <;>
        simp [MergedLinearFull.train, hm, hmw, hg]

/-- C5 counterexample: on the rank-0 layer `exC5` with
`merge_weights = True`, the call `train(False)` flips the merged flag from
its initial `False` to `True`: the source sets `self.merged = not mode`
outside the `r > 0 and any(enable_lora)` eligibility guard. -/
theorem merged_flag_flips_at_rank_zero :
    exC5.r = 0 ∧ exC5.merged = false ∧ (exC5.train false).merged = true :=
  ⟨rfl, rfl, rfl⟩

/-- C5 amended: for a layer with rank 0 or no partition enabled, the frozen
weight never changes under any sequence of `train` calls, and the merged
flag also never changes provided `merge_weights` is false; with
`merge_weights` true the flag does change (it is set to `not mode` whenever
the mode switches), as the counterexample shows. -/
theorem vacuous_adaptation_weight_invariant (l : MergedLinearFull)
    (h : l.r = 0 ∨ l.enable_lora.any (fun b => b) = false) (ms : List Bool) :
    (ms.foldl MergedLinearFull.train l).weight = l.weight ∧
    (l.merge_weights = false →
      (ms.foldl MergedLinearFull.train l).merged = l.merged) := by
  induction ms generalizing l with
  | nil => exact ⟨rfl, fun _ => rfl⟩
  | cons m ms ih =>
      obtain ⟨hwt, hrr, hel, hmw, hmg⟩ := l.train_vacuous_step m h
      have h2 : (l.train m).r = 0 ∨ (l.train m).enable_lora.any (fun b => b) = false := by
        rw [hrr, hel]; exact h
      obtain ⟨ih1, ih2⟩ := ih (l.train m) h2
      refine ⟨by rw [List.foldl_cons, ih1, hwt], ?_⟩
      intro hf
      rw [List.foldl_cons, ih2 (by rw [hmw]; exact hf), hmg hf]

/-- Witness for the amended C5 theorem: the rank-0 layer `exC5` under the
mode sequence `[False, True]`. -/
theorem vacuous_adaptation_weight_invariant_witness :
    (exC5.r = 0 ∨ exC5.enable_lora.any (fun b => b) = false) ∧
    ([false, true].foldl MergedLinearFull.train exC5).weight = exC5.weight ∧
    (exC5.merge_weights = false →
      ([false, true].foldl MergedLinearFull.train exC5).merged = exC5.merged) := by
  refine ⟨Or.inl rfl, ?_, ?_⟩
  · exact (vacuous_adaptation_weight_invariant exC5 (Or.inl rfl) [false, true]).1
  · exact (vacuous_adaptation_weight_invariant exC5 (Or.inl rfl) [false, true]).2

/-- C6 counterexample: the constructor accepts rank 1 with
`enable_lora = [False, False]` (producing `exC6`, with no low-rank
attributes allocated), and `forward` on the fresh unmerged layer fails —
the `if self.r > 0` branch of the source reads the never-created `self.lora_A` —
instead of returning the plain frozen projection. -/
theorem forward_fails_when_no_partition_enabled :
    MergedLinearFull.init 2 2 1 1 (fun v => v) [false, false] false true
        (fun _ _ => 0) (fun _ => 0) (fun _ _ => 0) = Except.ok exC6 ∧
    0 < exC6.r ∧ exC6.forward exX1 = none ∧
    exC6.forward exX1 ≠ some (exC6.linearBase exX1) := by
  refine ⟨rfl, by decide, rfl, ?_⟩
  intro h
  exact Option.noConfusion h

/-- C6 amended: for every well-formed layer with rank 0, `forward` returns
exactly the plain frozen projection `linearBase` (x·Wᵀ, or x·W under
`fan_in_fan_out`, plus bias) for every input, without error; but for rank>0
with no partition enabled, the unmerged `forward` fails (the low-rank
attributes were never allocated) rather than returning the plain
projection. -/
theorem forward_rank_zero_or_disabled (l : MergedLinearFull) (x : ℕ → ℚ)
    (hw : l.WF) :
    (l.r = 0 → l.forward x = some (l.linearBase x)) ∧
    (0 < l.r → l.enable_lora.any (fun b => b) = false → l.merged = false →
      l.forward x = none) := by
  constructor
  · intro h0
    simp [MergedLinearFull.forward, h0]
  · intro hr ha hm
    have hl : l.has_lora = false := by
      rw [MergedLinearFull.WF] at hw
      rw [hw, ha]
      simp
    simp [MergedLinearFull.forward, hm, hr, hl]

/-- Witness for the amended C6 theorem: the rank-0 layer `exC6w` forwards as
the plain projection. -/
theorem forward_rank_zero_or_disabled_witness :
    MergedLinearFull.WF exC6w ∧ exC6w.r = 0 ∧
    exC6w.forward exX1 = some (exC6w.linearBase exX1) :=
  ⟨rfl, rfl, (forward_rank_zero_or_disabled exC6w exX1 rfl).1 rfl⟩

/-- C7 counterexample: entering the scope over baseline globals and raising
inside the body leaves the substituted constructor and the recorded config
in place — the generator has no `try/finally`, so the two restoration lines
never run on abnormal exit. -/
theorem lora_scope_no_restore_on_exception :
    exG7.causalSelfAttention = AttnClassRef.baseline ∧ exG7.lora_config = none ∧
    lora 1 1 0 true exBody7 exG7 = (substituted 1 1 0, true) ∧
    (lora 1 1 0 true exBody7 exG7).1.causalSelfAttention ≠ exG7.causalSelfAttention ∧
    (lora 1 1 0 true exBody7 exG7).1.lora_config ≠ none :=
  ⟨rfl, rfl, rfl, by decide, by decide⟩

/-- C7 amended: with the scope enabled, the original constructor reference is
restored and the process-wide config cleared on NORMAL exit of the body;
on abnormal (exception) exit the restoration does not run and the globals
are exactly what the raising body left behind. -/
theorem lora_scope_restores_only_on_normal_exit (r a d : ℚ)
    (body : LlamaGlobals → LlamaGlobals × Bool) (g : LlamaGlobals) :
    ((body (substituted r a d)).2 = false →
      (lora r a d true body g).1.causalSelfAttention = g.causalSelfAttention ∧
      (lora r a d true body g).1.lora_config = none) ∧
    ((body (substituted r a d)).2 = true →
      lora r a d true body g = body (substituted r a d)) := by
  constructor
  · intro h
    simp [lora, h]
  · intro h
    simp [lora, h]

/-- Witness for the amended C7 theorem with a normally-returning body. -/
theorem lora_scope_restores_only_on_normal_exit_witness :
    (exBody7w (substituted 1 1 0)).2 = false ∧
    (lora 1 1 0 true exBody7w exG7).1.causalSelfAttention = exG7.causalSelfAttention ∧
    (lora 1 1 0 true exBody7w exG7).1.lora_config = none :=
  ⟨rfl, ((lora_scope_restores_only_on_normal_exit 1 1 0 exBody7w exG7).1 rfl).1,
    ((lora_scope_restores_only_on_normal_exit 1 1 0 exBody7w exG7).1 rfl).2⟩

/-- C8 amended (characterization part): construction fails with
`ZeroDivisionError` exactly when `enable_lora` is empty, fails the assert
(`AssertionError`, the ConfigurationError of the spec) exactly when
`enable_lora` is nonempty and `out_features % len(enable_lora) != 0`, and
succeeds exactly otherwise; each filter fails exactly when the bias policy
is outside {none, all, lora_only}. -/
theorem configuration_error_characterization :
    (∀ (inf outf r : ℕ) (a : ℚ) (dp : (ℕ → ℚ) → ℕ → ℚ) (el : List Bool)
        (ff mw : Bool) (w0 : Mat) (b0 : ℕ → ℚ) (A0 : Mat),
      (MergedLinearFull.init inf outf r a dp el ff mw w0 b0 A0 =
          Except.error InitError.zeroDivisionError ↔ el.length = 0) ∧
      (MergedLinearFull.init inf outf r a dp el ff mw w0 b0 A0 =
          Except.error InitError.assertionError ↔
        ¬ el.length = 0 ∧ ¬ outf % el.length = 0) ∧
      ((∃ l, MergedLinearFull.init inf outf r a dp el ff mw w0 b0 A0 =
          Except.ok l) ↔ ¬ el.length = 0 ∧ outf % el.length = 0)) ∧
    (∀ (m : PyModel) (p : String),
      mark_only_lora_as_trainable m p = Except.error () ↔
        p ≠ noneS ∧ p ≠ allS ∧ p ≠ loraOnlyS) ∧
    (∀ (d : List String) (p : String),
      lora_state_dict d p = Except.error () ↔
        p ≠ noneS ∧ p ≠ allS ∧ p ≠ loraOnlyS) := by
  refine ⟨?_, ?_, ?_⟩
  · intro inf outf r a dp el ff mw w0 b0 A0
    by_cases h0 : el.length = 0 <;> by_cases hc : outf % el.length = 0 <;>
      refine ⟨?_, ?_, ?_⟩ <;> simp [MergedLinearFull.init, h0, hc]
  · intro m p
    have hna : allS ≠ noneS := by decide
    have hnl : loraOnlyS ≠ noneS := by decide
    have hal : loraOnlyS ≠ allS := by decide
    constructor
    · intro h
      refine ⟨?_, ?_, ?_⟩ <;> intro he <;> subst he <;>
        simp [mark_only_lora_as_trainable, hna, hnl, hal] at h
    · rintro ⟨h1, h2, h3⟩
      simp [mark_only_lora_as_trainable, h1, h2, h3]
  · intro d p
    have hna : allS ≠ noneS := by decide
    have hnl : loraOnlyS ≠ noneS := by decide
    have hal : loraOnlyS ≠ allS := by decide
    constructor
    · intro h
      refine ⟨?_, ?_, ?_⟩ <;> intro he <;> subst he <;>
        simp [lora_state_dict, hna, hnl, hal] at h
    · rintro ⟨h1, h2, h3⟩
      simp [lora_state_dict, h1, h2, h3]

/-- C8 counterexample: the two ConfigurationError sites are not the only
user-facing failure modes — the constructor accepts
`out_features=1, r=1, enable_lora=[False]` (producing `exC8`) and the very
first `forward` call on the accepted layer fails. -/
theorem constructor_accepts_but_forward_fails :
    MergedLinearFull.init 1 1 1 1 (fun v => v) [false] false true
        (fun _ _ => 0) (fun _ => 0) (fun _ _ => 0) = Except.ok exC8 ∧
    exC8.forward (fun _ => 1) = none :=
  ⟨rfl, rfl⟩

/-- C9 counterexample: applying the trainability filter with policy `none`
to a model whose low-rank factor parameter is currently frozen leaves that
factor frozen: the first loop of `mark_only_lora_as_trainable` only sets
`requires_grad = False` on non-`lora_` names and never sets anything to
`True`, so "every low-rank-factor parameter is trainable" fails. -/
theorem mark_none_leaves_frozen_lora_frozen :
    marked loraMarkS exN9 = true ∧
    mark_only_lora_as_trainable exM9 noneS = Except.ok exM9 ∧
    (exN9, false) ∈ exM9.named_parameters :=
  ⟨rfl, rfl, by decide⟩

/-- C9 amended: after `Apply(model, "none")`, every parameter whose name
lacks the `lora_` marker is non-trainable, and every marked parameter keeps
its previous trainability flag (hence is trainable whenever it was
trainable before, as freshly constructed factors are). -/
theorem mark_none_only_freezes_nonlora (m m' : PyModel)
    (h : mark_only_lora_as_trainable m noneS = Except.ok m') :
    (∀ n g, (n, g) ∈ m'.named_parameters → marked loraMarkS n = false → g = false) ∧
    (∀ n g, (n, g) ∈ m.named_parameters → marked loraMarkS n = true →
      (n, g) ∈ m'.named_parameters) := by
  have hm : m' = { m with named_parameters := freezeNonLora m.named_parameters } := by
    simp [mark_only_lora_as_trainable] at h
    exact h.symm
  subst hm
  constructor
  · intro n g hmem hfl
    simp only [freezeNonLora, List.mem_map] at hmem
    obtain ⟨⟨pn, pg⟩, hp, hfp⟩ := hmem
    by_cases hl : marked loraMarkS pn = true
    · rw [if_pos hl] at hfp
      cases hfp
      exact absurd hl (by simp [hfl])
    · rw [if_neg hl] at hfp
      cases hfp
      rfl
  · intro n g hmem hl
    simp only [freezeNonLora, List.mem_map]
    exact ⟨(n, g), hmem, by simp [hl]⟩

/-- Witness for the amended C9 theorem on the two-parameter model `exM9w`. -/
theorem mark_none_only_freezes_nonlora_witness :
    mark_only_lora_as_trainable exM9w noneS = Except.ok exM9r ∧
    (∀ n g, (n, g) ∈ exM9r.named_parameters → marked loraMarkS n = false → g = false) :=
  ⟨rfl, (mark_none_only_freezes_nonlora exM9w exM9r rfl).1⟩

/-- Membership in the `lora_only` collection loop of `lora_state_dict`:
exactly the marked keys of `ks` together with their sibling bias names that
occur in `d`. -/
theorem mem_collectLoraOnly (d ks : List String) (k0 : String) :
    k0 ∈ collectLoraOnly d ks ↔
      ∃ k, k ∈ ks ∧ marked loraMarkS k = true ∧
        (k0 = k ∨ (bias_name k ∈ d ∧ k0 = bias_name k)) := by
  induction ks with
  | nil => simp [collectLoraOnly]
  | cons k ks ih =>
      by_cases hm : marked loraMarkS k = true <;>
        by_cases hb : bias_name k ∈ d <;>
          simp [collectLoraOnly, hm, hb, ih] <;> aesop

/-- C10: the checkpoint filter selects, for policy `none`, exactly the keys
carrying the low-rank marker; for `all`, those plus every key carrying the
bias marker; for `lora_only`, the marked keys plus exactly the sibling
bias keys (`k.split(loraMark)[0] + biasMark`) of marked keys, when present in
the snapshot. -/
theorem lora_state_dict_selection (d : List String) (k : String) :
    (k ∈ selected d noneS ↔ k ∈ d ∧ marked loraMarkS k = true) ∧
    (k ∈ selected d allS ↔
      k ∈ d ∧ (marked loraMarkS k = true ∨ marked biasMarkS k = true)) ∧
    (k ∈ selected d loraOnlyS ↔
      (k ∈ d ∧ marked loraMarkS k = true) ∨
      (k ∈ d ∧ ∃ k2, k2 ∈ d ∧ marked loraMarkS k2 = true ∧ k = bias_name k2)) := by
  have hna : ¬ allS = noneS := by decide
  have hnl : ¬ loraOnlyS = noneS := by decide
  have hal : ¬ loraOnlyS = allS := by decide
  refine ⟨?_, ?_, ?_⟩
  · simp [selected, lora_state_dict, List.mem_filter]
  · simp [selected, lora_state_dict, hna, List.mem_filter]
  · have hsel : selected d loraOnlyS = collectLoraOnly d d := by
      simp [selected, lora_state_dict, hnl, hal]
    rw [hsel, mem_collectLoraOnly]
    constructor
    · rintro ⟨k1, h1, h2, rfl | ⟨hbm, rfl⟩⟩
      · exact Or.inl ⟨h1, h2⟩
      · exact Or.inr ⟨hbm, k1, h1, h2, rfl⟩
    · rintro (⟨hk, hm⟩ | ⟨hk, k2, hk2, hm2, heq⟩)
      · exact ⟨k, hk, hm, Or.inl rfl⟩
      · exact ⟨k2, hk2, hm2, Or.inr ⟨heq ▸ hk, heq⟩⟩

/-- Supporting lemma for the C1 analysis: without `fan_in_fan_out` (the
configuration the repository actually instantiates, line 262 of the source)
and with identity dropout, merging IS transparent: `forward` immediately
after `train(False)` agrees pointwise with the unmerged `forward`. -/
theorem merge_transparent_without_fan_in_fan_out (l : MergedLinearFull)
    (x : ℕ → ℚ) (hl : l.has_lora = true) (hm : l.merged = false)
    (hr : 0 < l.r) (he : l.enable_lora.any (fun b => b) = true)
    (hf : l.fan_in_fan_out = false) (hd : l.lora_dropout = fun v => v)
    (hmw : l.merge_weights = true) (o : ℕ) :
    (l.train false).fwdD x o = l.fwdD x o := by
  have hg : (decide (0 < l.r) && l.enable_lora.any (fun b => b)) = true := by
    simp [hr, he]
  have htr : l.train false =
      { l with
        training := false
        weight := fun i j => l.weight i j + 1 * l.delta_w i j * l.scaling
        merged := true } := by
    simp [MergedLinearFull.train, hm, hmw, hg]
  have key : (∑ j ∈ Finset.range l.in_features, l.delta_w o j * x j)
      = l.after_B x o := by
    unfold MergedLinearFull.delta_w MergedLinearFull.after_B MergedLinearFull.after_A
    rw [hd]
    simp only [Finset.sum_mul]
    rw [Finset.sum_comm]
    refine Finset.sum_congr rfl (fun k _ => ?_)
    rw [Finset.mul_sum]
    refine Finset.sum_congr rfl (fun j _ => ?_)
    ring
  rw [htr]
  simp [MergedLinearFull.fwdD, MergedLinearFull.forward, MergedLinearFull.linearBase,
    MergedLinearFull.Tw, hf, hm, hr, hl]
  rw [← key, Finset.sum_mul, add_right_comm, ← Finset.sum_add_distrib]
  refine congrArg (fun t => t + l.bias o) ?_
  refine Finset.sum_congr rfl (fun j _ => ?_)
  ring

/-- Witness for C4: idempotence instantiated on the concrete layer `exC1`
with mode `true`. -/
theorem train_idempotent_witness :
    ((exC1.train true).train true).weight = (exC1.train true).weight ∧
    ((exC1.train true).train true).merged = (exC1.train true).merged :=
  train_idempotent exC1 true

/-- Witness for the C8 characterization: `out_features = 10` with three
partitions fails the assert, an empty `enable_lora` raises the division
error even at `out_features = 0`, and the policy string `loras` is rejected
by both filters. -/
theorem configuration_error_characterization_witness :
    MergedLinearFull.init 4 10 0 1 (fun v => v) [false, false, false] false true
        (fun _ _ => 0) (fun _ => 0) (fun _ _ => 0) =
      Except.error InitError.assertionError ∧
    MergedLinearFull.init 4 0 0 1 (fun v => v) [] false true
        (fun _ _ => 0) (fun _ => 0) (fun _ _ => 0) =
      Except.error InitError.zeroDivisionError ∧
    mark_only_lora_as_trainable exM9 (String.append "lora" "s") = Except.error () ∧
    lora_state_dict exD10 (String.append "lora" "s") = Except.error () :=
  ⟨((configuration_error_characterization.1 4 10 0 1 (fun v => v)
      [false, false, false] false true (fun _ _ => 0) (fun _ => 0)
      (fun _ _ => 0)).2.1).mpr (by decide),
   ((configuration_error_characterization.1 4 0 0 1 (fun v => v)
      [] false true (fun _ _ => 0) (fun _ => 0) (fun _ _ => 0)).1).mpr (by decide),
   (configuration_error_characterization.2.1 exM9
      (String.append "lora" "s")).mpr (by decide),
   (configuration_error_characterization.2.2 exD10
      (String.append "lora" "s")).mpr (by decide)⟩

/-- Witness for C10: the factor key of `exD10` is selected under policy
`none`. -/
theorem lora_state_dict_selection_witness :
    String.append "c." (String.append loraMarkS "A") ∈ selected exD10 noneS :=
  (lora_state_dict_selection exD10
    (String.append "c." (String.append loraMarkS "A"))).1.mpr ⟨by decide, by decide⟩
